import Mathlib

/-!
Shallow embedding of the TrafficRoute (volcengine) DNS provider of ddns-go,
`src/dns/traffic_route.go`, together with theorems about its reconciliation
pass (`addUpdateDomainRecords`, `modify`, `create`, `getLine`, and the query
construction of `request` for the `ListRecords` action).

Network calls are modelled by an explicit environment (`Env`) giving the
response each call receives; responses to the parameterless `ListZones` call
and to `ListRecords` are keyed by the domain being processed (modelling
per-call variation of the network), and responses to write calls are keyed by
the payload sent. A runtime panic (out-of-range index) is modelled as `none` /
`StepOutcome.panic`.
-/

namespace TrafficRouteSpec

/-- Status field of a `config.Domain`: not yet updated in this pass,
updated successfully, or failed. -/
inductive UpdateStatusType where
  | UpdatedNothing
  | UpdatedSuccess
  | UpdatedFailed
deriving DecidableEq

/-- The part of `config.Domain` read or written by traffic_route.go:
`DomainName`, the result of `GetSubDomain()`, the custom `Line` url parameter
(`GetCustomParams().Get("Line")` when present), and the mutable
`UpdateStatus`. -/
structure Domain where
  DomainName : String
  SubDomain : String
  CustomLine : Option String
  UpdateStatus : UpdateStatusType
deriving DecidableEq

/-- TrafficRouteRecord: a DNS record in the provider's shape. -/
structure TrafficRouteRecord where
  ZID : Int
  RecordID : String
  Host : String
  TTL : Int
  «Type» : String
  Line : String
  Value : String
deriving DecidableEq

/-- Error member of the response meta. -/
structure RespError where
  Code : String
  Message : String
deriving DecidableEq

/-- TrafficRouteRespMeta: common response metadata. -/
structure TrafficRouteRespMeta where
  RequestId : String
  Action : String
  Version : String
  Service : String
  Region : String
  Error : RespError
deriving DecidableEq

/-- One zone entry of a ListZones response. -/
structure Zone where
  ZID : Int
  ZoneName : String
  RecordCount : Int
deriving DecidableEq

/-- Result member of TrafficRouteZonesResp: the zones list and a separately
decoded Total counter. -/
structure ZonesResult where
  Zones : List Zone
  Total : Int
deriving DecidableEq

/-- TrafficRouteZonesResp: ListZones response. -/
structure TrafficRouteZonesResp where
  Resp : TrafficRouteRespMeta
  Total : Int
  Result : ZonesResult
deriving DecidableEq

/-- Result member of TrafficRouteRecordsResp. `Records = none` models a nil
slice (the code checks `status.Result.Records == nil`); `TotalCount` is
decoded independently of the list. -/
structure RecordsResult where
  TotalCount : Int
  Records : Option (List TrafficRouteRecord)
deriving DecidableEq

/-- TrafficRouteRecordsResp: ListRecords response. -/
structure TrafficRouteRecordsResp where
  Resp : TrafficRouteRespMeta
  Result : RecordsResult
deriving DecidableEq

/-- Result member of TrafficRouteStatus. -/
structure StatusResult where
  ZoneName : String
  Status : Bool
  RecordCount : Int
deriving DecidableEq

/-- TrafficRouteStatus: UpdateRecord response; success is the boolean
`Result.Status`. -/
structure TrafficRouteStatus where
  Resp : TrafficRouteRespMeta
  Result : StatusResult
deriving DecidableEq

/-- Response member of TencentCloudStatus. -/
structure TencentCloudResponse where
  Error : RespError
deriving DecidableEq

/-- TencentCloudStatus: the response shape `create` decodes into (the code
reuses the Tencent type); success is `Response.Error.Code == ""`. -/
structure TencentCloudStatus where
  Response : TencentCloudResponse
deriving DecidableEq

/-- Environment of one reconciliation pass: the response each network call
receives. `Except.error` models a transport error. `ListZones` takes no
request parameters in the code, so its response is keyed by the domain being
processed; write responses are keyed by the payload sent. -/
structure Env where
  listZonesResp : Domain → Except String TrafficRouteZonesResp
  listRecordsResp : Domain → Int → Except String TrafficRouteRecordsResp
  updateResp : TrafficRouteRecord → Except String TrafficRouteStatus
  createResp : TrafficRouteRecord → Except String TencentCloudStatus

/-- One API call issued during the pass, as observable on the wire. -/
inductive ApiCall where
  | listZonesCall
  | listRecordsCall (zid : Int)
  | createCall (record : TrafficRouteRecord)
  | updateCall (record : TrafficRouteRecord)
deriving DecidableEq

/-- Whether a call is a write (CreateRecord or UpdateRecord). -/
def ApiCall.isWrite : ApiCall → Bool
  | .createCall _ => true
  | .updateCall _ => true
  | _ => false

/-- Payload `modify` sends for one stale record: the listed record with Host,
Type, Line, Value and TTL overwritten (`record.Host = domain.GetSubDomain()`,
`record.Type = recordType`, `record.Line = "Default"`, `record.Value = ipAddr`,
`record.TTL = tr.TTL`); ZID and RecordID are carried forward unchanged. -/
def updatePayload (ttl : Int) (domain : Domain) (recordType ipAddr : String)
    (record : TrafficRouteRecord) : TrafficRouteRecord :=
  { record with
      Host := domain.SubDomain
      «Type» := recordType
      Line := "Default"
      Value := ipAddr
      TTL := ttl }

/-- Body of `TrafficRoute.modify`: iterate over the listed records; a record
whose Value equals ipAddr is skipped (`continue`); otherwise an UpdateRecord
call is issued. A transport error sets UpdatedFailed and returns from modify;
otherwise `status.Result.Status` decides UpdatedSuccess / UpdatedFailed and
the loop continues. Returns the domain (with its possibly rewritten status)
and the update payloads issued, in order. -/
def modifyLoop (ttl : Int) (env : Env) (recordType ipAddr : String)
    (domain : Domain) : List TrafficRouteRecord → Domain × List TrafficRouteRecord
  | [] => (domain, [])
  | record :: rest =>
    if record.Value = ipAddr then
      modifyLoop ttl env recordType ipAddr domain rest
    else
      let payload := updatePayload ttl domain recordType ipAddr record
      match env.updateResp payload with
      | .error _ => ({ domain with UpdateStatus := .UpdatedFailed }, [payload])
      | .ok status =>
        let domain' :=
          if status.Result.Status then { domain with UpdateStatus := .UpdatedSuccess }
          else { domain with UpdateStatus := .UpdatedFailed }
        let next := modifyLoop ttl env recordType ipAddr domain' rest
        (next.1, payload :: next.2)

/-- Payload `create` sends: ZID, Host (the subdomain), Type, Value and TTL are
set; RecordID and Line are the Go zero value "" (the struct literal in
`create` does not mention them, and `getLine` is not called). -/
def createPayload (ttl zoneID : Int) (domain : Domain) (recordType ipAddr : String) :
    TrafficRouteRecord :=
  { ZID := zoneID
    RecordID := ""
    Host := domain.SubDomain
    TTL := ttl
    «Type» := recordType
    Line := ""
    Value := ipAddr }

/-- Body of `TrafficRoute.create`: issue one CreateRecord call; a transport
error or a non-empty `Response.Error.Code` sets UpdatedFailed, otherwise
UpdatedSuccess. Returns the updated domain and the payload sent. -/
def create (ttl : Int) (env : Env) (zoneID : Int) (domain : Domain)
    (recordType ipAddr : String) : Domain × TrafficRouteRecord :=
  let payload := createPayload ttl zoneID domain recordType ipAddr
  match env.createResp payload with
  | .error _ => ({ domain with UpdateStatus := .UpdatedFailed }, payload)
  | .ok status =>
    if status.Response.Error.Code = "" then
      ({ domain with UpdateStatus := .UpdatedSuccess }, payload)
    else
      ({ domain with UpdateStatus := .UpdatedFailed }, payload)

/-- TrafficRoute.getLine: the custom "Line" url parameter when the domain has
one, else "默认". Present in the source but called by neither `create` nor
`modify`. -/
def getLine (domain : Domain) : String :=
  match domain.CustomLine with
  | some l => l
  | none => "默认"

/-- Record passed to `request` for the ListRecords action inside
`addUpdateDomainRecords`: only the ZID field is set, every other field is the
Go zero value. -/
def listRecordsPayload (zoneID : Int) : TrafficRouteRecord :=
  { ZID := zoneID
    RecordID := ""
    Host := ""
    TTL := 0
    «Type» := ""
    Line := ""
    Value := "" }

/-- Query parameters `request` builds for the ListRecords action: the record
is marshalled to JSON and unmarshalled back (which preserves ZID), and the
only query parameter sent is ZID, rendered with strconv.Itoa. -/
def listRecordsQuery (record : TrafficRouteRecord) : List (String × List String) :=
  [("ZID", [toString record.ZID])]

/-- Outcome of processing one domain inside the `for _, domain := range
domains` loop: `panic` models the out-of-range index `resp.Result.Zones[0]`,
`halted` models `return` (the whole record-type pass stops), `done` models
falling through to the next domain. The calls issued while processing this
domain are carried alongside. -/
inductive StepOutcome where
  | panic
  | halted (domain : Domain) (calls : List ApiCall)
  | done (domain : Domain) (calls : List ApiCall)
deriving DecidableEq

/-- One iteration of the domain loop of `addUpdateDomainRecords`: ListZones,
the `Result.Total == 0` guard, the `Zones[0]` index, ListRecords, the
`Records == nil` guard, then `modify` when `TotalCount > 0` else `create`. -/
def processOneDomain (ttl : Int) (env : Env) (recordType ipAddr : String)
    (domain : Domain) : StepOutcome :=
  match env.listZonesResp domain with
  | .error _ => .halted { domain with UpdateStatus := .UpdatedFailed } [.listZonesCall]
  | .ok resp =>
    if resp.Result.Total = 0 then
      .halted { domain with UpdateStatus := .UpdatedFailed } [.listZonesCall]
    else
      match resp.Result.Zones with
      | [] => .panic
      | zone :: _ =>
        match env.listRecordsResp domain zone.ZID with
        | .error _ =>
          .halted { domain with UpdateStatus := .UpdatedFailed }
            [.listZonesCall, .listRecordsCall zone.ZID]
        | .ok status =>
          match status.Result.Records with
          | none =>
            .halted { domain with UpdateStatus := .UpdatedFailed }
              [.listZonesCall, .listRecordsCall zone.ZID]
          | some records =>
            if 0 < status.Result.TotalCount then
              let res := modifyLoop ttl env recordType ipAddr domain records
              .done res.1
                ([.listZonesCall, .listRecordsCall zone.ZID] ++
                  res.2.map ApiCall.updateCall)
            else
              let res := create ttl env zone.ZID domain recordType ipAddr
              .done res.1
                [.listZonesCall, .listRecordsCall zone.ZID, .createCall res.2]

/-- Domain loop of `addUpdateDomainRecords`: `halted` leaves the remaining
domains unprocessed (their statuses untouched), `done` continues; `none`
models a runtime panic aborting the process. Returns the final domain list
and the concatenated call trace. -/
def processDomains (ttl : Int) (env : Env) (recordType ipAddr : String) :
    List Domain → Option (List Domain × List ApiCall)
  | [] => some ([], [])
  | domain :: rest =>
    match processOneDomain ttl env recordType ipAddr domain with
    | .panic => none
    | .halted d calls => some (d :: rest, calls)
    | .done d calls =>
      (processDomains ttl env recordType ipAddr rest).map
        (fun pr => (d :: pr.1, calls ++ pr.2))

/-- addUpdateDomainRecords for one record type: when the desired ipAddr is
empty the whole type is skipped, otherwise the domains are processed in
order. -/
def addUpdateDomainRecords (ttl : Int) (env : Env) (recordType ipAddr : String)
    (domains : List Domain) : Option (List Domain × List ApiCall) :=
  if ipAddr = "" then some (domains, [])
  else processDomains ttl env recordType ipAddr domains

/-- Outcome a single UpdateRecord call maps to in `modify`: transport error
or vendor `Status = false` give UpdatedFailed, `Status = true` gives
UpdatedSuccess. -/
def writeOutcome (env : Env) (payload : TrafficRouteRecord) : UpdateStatusType :=
  match env.updateResp payload with
  | .error _ => .UpdatedFailed
  | .ok status => if status.Result.Status then .UpdatedSuccess else .UpdatedFailed

/-- Status obtained by folding the outcomes of a sequence of update payloads
over a starting status: each write overwrites the status, so the last write
issued decides, and an empty write list leaves the status unchanged. -/
def lastWriteStatus (env : Env) (start : UpdateStatusType) :
    List TrafficRouteRecord → UpdateStatusType
  | [] => start
  | payload :: rest => lastWriteStatus env (writeOutcome env payload) rest

/-! Helper lemmas. -/

/-- Rewriting the status field of the domain does not change the update
payloads built from it, since `updatePayload` only reads `SubDomain`. -/
theorem updatePayload_setStatus (ttl : Int) (d : Domain) (s : UpdateStatusType)
    (recordType ipAddr : String) :
    updatePayload ttl { d with UpdateStatus := s } recordType ipAddr =
      updatePayload ttl d recordType ipAddr := rfl

/-- When every listed record already holds the desired value, `modify` skips
every record, touches nothing and issues no call. -/
theorem modifyLoop_all_match (ttl : Int) (env : Env) (recordType ipAddr : String) :
    ∀ (records : List TrafficRouteRecord) (d : Domain),
      (∀ r ∈ records, r.Value = ipAddr) →
      modifyLoop ttl env recordType ipAddr d records = (d, []) := by
  intro records
  induction records with
  | nil => intro d _; rfl
  | cons r rest ih =>
    intro d h
    have hr : r.Value = ipAddr := h r (List.mem_cons_self r rest)
    have htail := ih d (fun x hx => h x (List.mem_cons_of_mem r hx))
    simp [modifyLoop, hr, htail]

/-- Every update payload issued by `modify` comes from a listed record whose
value differs from the desired one. -/
theorem modifyLoop_writes_mem (ttl : Int) (env : Env) (recordType ipAddr : String) :
    ∀ (records : List TrafficRouteRecord) (d : Domain) (w : TrafficRouteRecord),
      w ∈ (modifyLoop ttl env recordType ipAddr d records).2 →
      ∃ r ∈ records, r.Value ≠ ipAddr ∧ w = updatePayload ttl d recordType ipAddr r := by
  intro records
  induction records with
  | nil => intro d w hw; simp [modifyLoop] at hw
  | cons r rest ih =>
    intro d w hw
    by_cases hr : r.Value = ipAddr
    · simp only [modifyLoop, if_pos hr] at hw
      obtain ⟨x, hx, hxv, hxe⟩ := ih d w hw
      exact ⟨x, List.mem_cons_of_mem r hx, hxv, hxe⟩
    · simp only [modifyLoop, if_neg hr] at hw
      cases hresp : env.updateResp (updatePayload ttl d recordType ipAddr r) with
      | error e =>
        rw [hresp] at hw
        simp at hw
        exact ⟨r, List.mem_cons_self r rest, hr, hw⟩
      | ok status =>
        rw [hresp] at hw
        simp at hw
        rcases hw with hw | hw
        · exact ⟨r, List.mem_cons_self r rest, hr, hw⟩
        · by_cases hs : status.Result.Status
          · rw [if_pos hs] at hw
            obtain ⟨x, hx, hxv, hxe⟩ := ih { d with UpdateStatus := .UpdatedSuccess } w hw
            exact ⟨x, List.mem_cons_of_mem r hx, hxv, hxe⟩
          · rw [if_neg hs] at hw
            obtain ⟨x, hx, hxv, hxe⟩ := ih { d with UpdateStatus := .UpdatedFailed } w hw
            exact ⟨x, List.mem_cons_of_mem r hx, hxv, hxe⟩

/-- When no update call meets a transport error, `modify` issues exactly one
update call per stale record, in list order. -/
theorem modifyLoop_writes_no_transport_error (ttl : Int) (env : Env)
    (recordType ipAddr : String) :
    ∀ (records : List TrafficRouteRecord) (d : Domain),
      (∀ r ∈ records, r.Value ≠ ipAddr →
        (env.updateResp (updatePayload ttl d recordType ipAddr r)).isOk = true) →
      (modifyLoop ttl env recordType ipAddr d records).2 =
        (records.filter (fun r => r.Value != ipAddr)).map
          (updatePayload ttl d recordType ipAddr) := by
  intro records
  induction records with
  | nil => intro d _; rfl
  | cons r rest ih =>
    intro d h
    by_cases hr : r.Value = ipAddr
    · have htail := ih d (fun x hx hv => h x (List.mem_cons_of_mem r hx) hv)
      simp only [modifyLoop, if_pos hr]
      rw [htail]
      have : (r.Value != ipAddr) = false := by simp [hr]
      simp [List.filter_cons, this]
    · have hok := h r (List.mem_cons_self r rest) hr
      cases hresp : env.updateResp (updatePayload ttl d recordType ipAddr r) with
      | error e => rw [hresp] at hok; simp [Except.isOk, Except.toBool] at hok
      | ok status =>
        simp only [modifyLoop, if_neg hr]
        rw [hresp]
        have hfil : (r.Value != ipAddr) = true := by simp [hr]
        by_cases hs : status.Result.Status
        · have htail := ih { d with UpdateStatus := .UpdatedSuccess }
            (fun x hx hv => h x (List.mem_cons_of_mem r hx) hv)
          simp [hs, htail, List.filter_cons, hfil]
          intro a _ _
          rfl
        · have htail := ih { d with UpdateStatus := .UpdatedFailed }
            (fun x hx hv => h x (List.mem_cons_of_mem r hx) hv)
          simp [hs, htail, List.filter_cons, hfil]
          intro a _ _
          rfl

/-- The status `modify` leaves on the domain is the outcome of the last
update call it issued, or the incoming status when it issued none. -/
theorem modifyLoop_status_lastWrite (ttl : Int) (env : Env)
    (recordType ipAddr : String) :
    ∀ (records : List TrafficRouteRecord) (d : Domain),
      (modifyLoop ttl env recordType ipAddr d records).1.UpdateStatus =
        lastWriteStatus env d.UpdateStatus
          (modifyLoop ttl env recordType ipAddr d records).2 := by
  intro records
  induction records with
  | nil => intro d; rfl
  | cons r rest ih =>
    intro d
    by_cases hr : r.Value = ipAddr
    · simp only [modifyLoop, if_pos hr]
      exact ih d
    · simp only [modifyLoop, if_neg hr]
      cases hresp : env.updateResp (updatePayload ttl d recordType ipAddr r) with
      | error e =>
        simp [lastWriteStatus, writeOutcome, hresp]
      | ok status =>
        by_cases hs : status.Result.Status
        · have := ih { d with UpdateStatus := .UpdatedSuccess }
          simp only [if_pos hs]
          simp [lastWriteStatus, writeOutcome, hresp, hs, this]
        · have := ih { d with UpdateStatus := .UpdatedFailed }
          simp only [if_neg hs]
          simp [lastWriteStatus, writeOutcome, hresp, hs, this]

/-- When zone lookup and record listing succeed, the zones list is non-empty,
the records list decodes, TotalCount is positive and every listed record
already holds the desired value, processing the domain issues exactly the two
read calls, no write, and returns the domain unchanged. -/
theorem processOneDomain_converged (ttl : Int) (env : Env)
    (recordType ipAddr : String) (d : Domain)
    (resp : TrafficRouteZonesResp) (z : Zone) (zs : List Zone)
    (rstat : TrafficRouteRecordsResp) (records : List TrafficRouteRecord)
    (h1 : env.listZonesResp d = Except.ok resp)
    (h2 : resp.Result.Total ≠ 0)
    (h3 : resp.Result.Zones = z :: zs)
    (h4 : env.listRecordsResp d z.ZID = Except.ok rstat)
    (h5 : rstat.Result.Records = some records)
    (h6 : 0 < rstat.Result.TotalCount)
    (h7 : ∀ r ∈ records, r.Value = ipAddr) :
    processOneDomain ttl env recordType ipAddr d =
      .done d [.listZonesCall, .listRecordsCall z.ZID] := by
  have hm := modifyLoop_all_match ttl env recordType ipAddr records d h7
  simp [processOneDomain, h1, h2, h3, h4, h5, h6, hm]

/-! Concrete objects used by witnesses and counterexamples. -/

/-- Response meta with empty fields. -/
def meta0 : TrafficRouteRespMeta :=
  { RequestId := "", Action := "", Version := "", Service := "", Region := ""
    Error := { Code := "", Message := "" } }

/-- A sample zone. -/
def exZone : Zone := { ZID := 1, ZoneName := "example.com", RecordCount := 1 }

/-- A sample domain, not yet updated in this pass, with no custom Line. -/
def exDomain : Domain :=
  { DomainName := "example.com", SubDomain := "sub", CustomLine := none
    UpdateStatus := .UpdatedNothing }

/-- A second sample domain. -/
def exDomain2 : Domain :=
  { DomainName := "other.org", SubDomain := "www", CustomLine := none
    UpdateStatus := .UpdatedNothing }

/-- A sample domain with the custom Line parameter set to "Telecom". -/
def lineDomain : Domain :=
  { DomainName := "line.example.com", SubDomain := "sub", CustomLine := some "Telecom"
    UpdateStatus := .UpdatedNothing }

/-- A sample domain with the custom Line parameter set to "Unicom". -/
def unicomDomain : Domain :=
  { DomainName := "unicom.example.com", SubDomain := "sub", CustomLine := some "Unicom"
    UpdateStatus := .UpdatedNothing }

/-- A record already holding the desired IP 1.2.3.4. -/
def matchedRecord : TrafficRouteRecord :=
  { ZID := 1, RecordID := "r0", Host := "sub", TTL := 600, «Type» := "A"
    Line := "Default", Value := "1.2.3.4" }

/-- A stale record on one routing line. -/
def staleR1 : TrafficRouteRecord :=
  { ZID := 1, RecordID := "r1", Host := "sub", TTL := 300, «Type» := "A"
    Line := "line1", Value := "9.9.9.9" }

/-- A second stale record on another routing line. -/
def staleR2 : TrafficRouteRecord :=
  { ZID := 1, RecordID := "r2", Host := "sub", TTL := 300, «Type» := "A"
    Line := "line2", Value := "8.8.8.8" }

/-- A record of a different host and record type with a stale value. -/
def txtRecord : TrafficRouteRecord :=
  { ZID := 1, RecordID := "rx", Host := "other", TTL := 300, «Type» := "TXT"
    Line := "Default", Value := "hello" }

/-- ListZones response with one zone and Total 1. -/
def okZonesResp : TrafficRouteZonesResp :=
  { Resp := meta0, Total := 1, Result := { Zones := [exZone], Total := 1 } }

/-- ListZones response with Total 0 and no zones. -/
def zeroZonesResp : TrafficRouteZonesResp :=
  { Resp := meta0, Total := 0, Result := { Zones := [], Total := 0 } }

/-- Malformed ListZones response: Total decodes to 1 but the Zones list is
empty. -/
def badZonesResp : TrafficRouteZonesResp :=
  { Resp := meta0, Total := 1, Result := { Zones := [], Total := 1 } }

/-- ListRecords response with the given TotalCount and records. -/
def recordsRespWith (n : Int) (rs : Option (List TrafficRouteRecord)) :
    TrafficRouteRecordsResp :=
  { Resp := meta0, Result := { TotalCount := n, Records := rs } }

/-- UpdateRecord response with the given Status flag. -/
def updateStatusResp (b : Bool) : TrafficRouteStatus :=
  { Resp := meta0, Result := { ZoneName := "example.com", Status := b, RecordCount := 1 } }

/-- CreateRecord response with the given vendor error code. -/
def createStatusResp (code : String) : TencentCloudStatus :=
  { Response := { Error := { Code := code, Message := "" } } }

/-- Environment of a converged provider: one zone, one record already holding
the desired IP, all calls succeed. -/
def convergedEnv : Env :=
  { listZonesResp := fun _ => .ok okZonesResp
    listRecordsResp := fun _ _ => .ok (recordsRespWith 1 (some [matchedRecord]))
    updateResp := fun _ => .ok (updateStatusResp true)
    createResp := fun _ => .ok (createStatusResp "") }

/-- Environment whose zone lookup reports Total 0. -/
def zeroZonesEnv : Env :=
  { convergedEnv with listZonesResp := fun _ => .ok zeroZonesResp }

/-- Environment whose zone lookup returns the malformed response with Total 1
but no zones. -/
def badZonesEnv : Env :=
  { convergedEnv with listZonesResp := fun _ => .ok badZonesResp }

/-! Claim theorems. -/

/-- C1 (amended): for a domain whose zone lookup succeeds with a non-zero
Total and a non-empty zones list, whose record listing succeeds with a
decoded records list and positive TotalCount, and where every listed record
already holds the desired IP, processing the domain issues zero create or
update calls — but the domain's UpdateStatus is left unchanged from its value
before the pass, not set to Success. -/
theorem c1_theorem (ttl : Int) (env : Env) (recordType ipAddr : String)
    (d : Domain) (resp : TrafficRouteZonesResp) (z : Zone) (zs : List Zone)
    (rstat : TrafficRouteRecordsResp) (records : List TrafficRouteRecord)
    (h1 : env.listZonesResp d = Except.ok resp)
    (h2 : resp.Result.Total ≠ 0)
    (h3 : resp.Result.Zones = z :: zs)
    (h4 : env.listRecordsResp d z.ZID = Except.ok rstat)
    (h5 : rstat.Result.Records = some records)
    (h6 : 0 < rstat.Result.TotalCount)
    (h7 : ∀ r ∈ records, r.Value = ipAddr) :
    processOneDomain ttl env recordType ipAddr d =
      .done d [.listZonesCall, .listRecordsCall z.ZID] :=
  processOneDomain_converged ttl env recordType ipAddr d resp z zs rstat records
    h1 h2 h3 h4 h5 h6 h7

/-- C1 witness: on the concrete converged environment, processing `exDomain`
issues exactly the two read calls and returns the domain unchanged. -/
theorem c1_witness :
    processOneDomain 600 convergedEnv "A" "1.2.3.4" exDomain =
      .done exDomain [.listZonesCall, .listRecordsCall 1] :=
  c1_theorem 600 convergedEnv "A" "1.2.3.4" exDomain okZonesResp exZone []
    (recordsRespWith 1 (some [matchedRecord])) [matchedRecord]
    rfl (by decide) rfl rfl rfl (by decide) (by decide)

/-- C1 counterexample: on the converged environment the domain's final
UpdateStatus is its initial UpdatedNothing, not UpdatedSuccess, refuting the
claim that the pass leaves the status equal to Success. -/
theorem c1_counterexample :
    processOneDomain 600 convergedEnv "A" "1.2.3.4" exDomain =
      .done exDomain [.listZonesCall, .listRecordsCall 1] ∧
    exDomain.UpdateStatus = .UpdatedNothing ∧
    exDomain.UpdateStatus ≠ .UpdatedSuccess := by decide

/-- C8: for a domain whose zone lookup succeeds but reports Total 0, the pass
issues no record-listing call and no create or update call for that domain,
and the domain's UpdateStatus is set to Failed. -/
theorem c8_theorem (ttl : Int) (env : Env) (recordType ipAddr : String)
    (d : Domain) (resp : TrafficRouteZonesResp)
    (h1 : env.listZonesResp d = Except.ok resp)
    (h2 : resp.Result.Total = 0) :
    processOneDomain ttl env recordType ipAddr d =
      .halted { d with UpdateStatus := .UpdatedFailed } [.listZonesCall] := by
  simp [processOneDomain, h1, h2]

/-- C8 witness: on the concrete zero-zones environment, processing `exDomain`
ends with only the ListZones call and a Failed status. -/
theorem c8_witness :
    processOneDomain 600 zeroZonesEnv "A" "1.2.3.4" exDomain =
      .halted { exDomain with UpdateStatus := .UpdatedFailed } [.listZonesCall] :=
  c8_theorem 600 zeroZonesEnv "A" "1.2.3.4" exDomain zeroZonesResp rfl rfl

/-- C10 (amended): when zone lookup succeeds, the index-0 access panics
exactly when the response passes the `Result.Total == 0` guard with an empty
`Result.Zones` list; the guard inspects only the independently decoded Total
counter, so it does not make the access in bounds by itself. -/
theorem c10_theorem (ttl : Int) (env : Env) (recordType ipAddr : String)
    (d : Domain) (resp : TrafficRouteZonesResp)
    (h : env.listZonesResp d = Except.ok resp) :
    (processOneDomain ttl env recordType ipAddr d = .panic ↔
      resp.Result.Total ≠ 0 ∧ resp.Result.Zones = []) := by
  by_cases h0 : resp.Result.Total = 0
  · simp [processOneDomain, h, h0]
  · cases hz : resp.Result.Zones with
    | nil => simp [processOneDomain, h, h0, hz]
    | cons z zs =>
      cases hr : env.listRecordsResp d z.ZID with
      | error e => simp [processOneDomain, h, h0, hz, hr]
      | ok rstat =>
        cases hrec : rstat.Result.Records with
        | none => simp [processOneDomain, h, h0, hz, hr, hrec]
        | some records =>
          by_cases h6 : 0 < rstat.Result.TotalCount
          · simp [processOneDomain, h, h0, hz, hr, hrec, h6]
          · simp [processOneDomain, h, h0, hz, hr, hrec, h6]

/-- C10 witness: on the malformed-response environment the characterization
instantiates to an actual panic. -/
theorem c10_witness :
    processOneDomain 600 badZonesEnv "A" "1.2.3.4" exDomain = .panic ↔
      badZonesResp.Result.Total ≠ 0 ∧ badZonesResp.Result.Zones = [] :=
  c10_theorem 600 badZonesEnv "A" "1.2.3.4" exDomain badZonesResp rfl

/-- C10 counterexample: the response with Total 1 and an empty Zones list
passes the guard yet has an empty zones list, and processing the domain hits
the out-of-range index (modelled as panic), refuting the claimed bound. -/
theorem c10_counterexample :
    badZonesResp.Result.Total ≠ 0 ∧
    badZonesResp.Result.Zones = [] ∧
    processOneDomain 600 badZonesEnv "A" "1.2.3.4" exDomain = .panic := by decide

/-- Environment where the update for the record r1 is vendor-rejected
(Status false) while the update for r2 succeeds; every call reaches the
provider. -/
def mixedEnv : Env :=
  { convergedEnv with
      listRecordsResp := fun _ _ => .ok (recordsRespWith 2 (some [staleR1, staleR2]))
      updateResp := fun p => .ok (updateStatusResp (p.RecordID == "r2")) }

/-- Environment where the update call for the record r1 fails at the
transport level and every other update succeeds. -/
def transportFailEnv : Env :=
  { convergedEnv with
      listRecordsResp := fun _ _ => .ok (recordsRespWith 2 (some [staleR1, staleR2]))
      updateResp := fun p =>
        if p.RecordID == "r1" then .error "dial tcp: i/o timeout"
        else .ok (updateStatusResp true) }

/-- C2 (amended): the final UpdateStatus after `modify` equals the outcome of
the last update call issued (Failed on transport error or vendor rejection,
Success otherwise), and is unchanged when no call is issued; each write
overwrites the previous status, so an earlier failure is overwritten by a
later success and the status is not Failed whenever any single action
failed. -/
theorem c2_theorem (ttl : Int) (env : Env) (recordType ipAddr : String)
    (records : List TrafficRouteRecord) (d : Domain) :
    (modifyLoop ttl env recordType ipAddr d records).1.UpdateStatus =
      lastWriteStatus env d.UpdateStatus
        (modifyLoop ttl env recordType ipAddr d records).2 :=
  modifyLoop_status_lastWrite ttl env recordType ipAddr records d

/-- C2 counterexample: two stale records on different lines; the first update
is vendor-rejected, the second succeeds, and the final status is
UpdatedSuccess — not Failed — although one action failed, refuting the
order-independence of the claimed status rule. -/
theorem c2_counterexample :
    modifyLoop 600 mixedEnv "A" "1.2.3.4" exDomain [staleR1, staleR2] =
      ({ exDomain with UpdateStatus := .UpdatedSuccess },
        [updatePayload 600 exDomain "A" "1.2.3.4" staleR1,
         updatePayload 600 exDomain "A" "1.2.3.4" staleR2]) ∧
    writeOutcome mixedEnv (updatePayload 600 exDomain "A" "1.2.3.4" staleR1) =
      .UpdatedFailed := by decide

/-- C3 (amended): provided no update call meets a transport error, every
record whose value differs from the desired IP receives its own update call,
in list order, and a vendor-rejected update does not prevent the updates of
the remaining records; a transport error, by contrast, returns from `modify`
and the remaining records receive no call. -/
theorem c3_theorem (ttl : Int) (env : Env) (recordType ipAddr : String)
    (records : List TrafficRouteRecord) (d : Domain)
    (h : ∀ r ∈ records, r.Value ≠ ipAddr →
      (env.updateResp (updatePayload ttl d recordType ipAddr r)).isOk = true) :
    (modifyLoop ttl env recordType ipAddr d records).2 =
      (records.filter (fun r => r.Value != ipAddr)).map
        (updatePayload ttl d recordType ipAddr) :=
  modifyLoop_writes_no_transport_error ttl env recordType ipAddr records d h

/-- C3 witness: with both stale records and a vendor rejection on the first,
both update calls are still issued. -/
theorem c3_witness :
    (modifyLoop 600 mixedEnv "A" "1.2.3.4" exDomain [staleR1, staleR2]).2 =
      (([staleR1, staleR2]).filter (fun r => r.Value != "1.2.3.4")).map
        (updatePayload 600 exDomain "A" "1.2.3.4") :=
  c3_theorem 600 mixedEnv "A" "1.2.3.4" [staleR1, staleR2] exDomain (by decide)

/-- C3 counterexample: both records are stale but the first update call fails
at the transport level; `modify` returns after one update call, so the second
stale record receives no update call, refuting the claim that a failure on
one record never prevents the calls for the remaining records. -/
theorem c3_counterexample :
    modifyLoop 600 transportFailEnv "A" "1.2.3.4" exDomain [staleR1, staleR2] =
      ({ exDomain with UpdateStatus := .UpdatedFailed },
        [updatePayload 600 exDomain "A" "1.2.3.4" staleR1]) ∧
    staleR2.Value ≠ "1.2.3.4" := by decide

/-- C6 (amended): every update call issued by `modify` comes from a listed
record with a stale value and carries forward that record's RecordID and ZID,
sets Host to the domain's subdomain, Type to the record type being processed,
the configured TTL and the desired IP — but the routing line is the hardcoded
string "Default", not the domain's custom Line parameter. -/
theorem c6_theorem (ttl : Int) (env : Env) (recordType ipAddr : String)
    (records : List TrafficRouteRecord) (d : Domain) (w : TrafficRouteRecord)
    (hw : w ∈ (modifyLoop ttl env recordType ipAddr d records).2) :
    ∃ r ∈ records, r.Value ≠ ipAddr ∧ w = updatePayload ttl d recordType ipAddr r ∧
      w.RecordID = r.RecordID ∧ w.ZID = r.ZID ∧ w.Host = d.SubDomain ∧
      w.«Type» = recordType ∧ w.TTL = ttl ∧ w.Value = ipAddr ∧
      w.Line = "Default" := by
  obtain ⟨r, hr, hrv, hre⟩ := modifyLoop_writes_mem ttl env recordType ipAddr records d w hw
  subst hre
  exact ⟨r, hr, hrv, rfl, rfl, rfl, rfl, rfl, rfl, rfl, rfl⟩

/-- C6 witness: the single update call issued for the stale record r1
carries forward its RecordID and sets the hardcoded line. -/
theorem c6_witness :
    ∃ r ∈ [staleR1],
      r.Value ≠ "1.2.3.4" ∧
      updatePayload 600 exDomain "A" "1.2.3.4" staleR1 =
        updatePayload 600 exDomain "A" "1.2.3.4" r ∧
      (updatePayload 600 exDomain "A" "1.2.3.4" staleR1).RecordID = r.RecordID ∧
      (updatePayload 600 exDomain "A" "1.2.3.4" staleR1).ZID = r.ZID ∧
      (updatePayload 600 exDomain "A" "1.2.3.4" staleR1).Host = exDomain.SubDomain ∧
      (updatePayload 600 exDomain "A" "1.2.3.4" staleR1).«Type» = "A" ∧
      (updatePayload 600 exDomain "A" "1.2.3.4" staleR1).TTL = 600 ∧
      (updatePayload 600 exDomain "A" "1.2.3.4" staleR1).Value = "1.2.3.4" ∧
      (updatePayload 600 exDomain "A" "1.2.3.4" staleR1).Line = "Default" :=
  c6_theorem 600 convergedEnv "A" "1.2.3.4" [staleR1] exDomain
    (updatePayload 600 exDomain "A" "1.2.3.4" staleR1) (by decide)

/-- C6 counterexample: for a domain whose custom Line parameter is "Unicom",
the update call issued for a stale record carries the hardcoded line
"Default", not the configured line, refuting the claim that the call carries
the domain's configured routing line. -/
theorem c6_counterexample :
    (modifyLoop 600 convergedEnv "A" "1.2.3.4" unicomDomain [staleR1]).2 =
      [updatePayload 600 unicomDomain "A" "1.2.3.4" staleR1] ∧
    (updatePayload 600 unicomDomain "A" "1.2.3.4" staleR1).Line = "Default" ∧
    getLine unicomDomain = "Unicom" ∧
    (updatePayload 600 unicomDomain "A" "1.2.3.4" staleR1).Line ≠
      getLine unicomDomain := by decide

/-- The payload `create` sends is `createPayload`, whatever the response. -/
theorem create_snd (ttl : Int) (env : Env) (zoneID : Int) (d : Domain)
    (recordType ipAddr : String) :
    (create ttl env zoneID d recordType ipAddr).2 =
      createPayload ttl zoneID d recordType ipAddr := by
  cases hresp : env.createResp (createPayload ttl zoneID d recordType ipAddr) with
  | error e => simp [create, hresp]
  | ok status =>
    by_cases hc : status.Response.Error.Code = "" <;> simp [create, hresp, hc]

/-- Environment in which every zone lookup fails at the transport level. -/
def zonesErrEnv : Env :=
  { convergedEnv with
      listZonesResp := fun _ => .error "lookup open.volcengineapi.com: no such host" }

/-- Environment whose record listing reports TotalCount 0 with an empty
decoded records list. -/
def emptyRecordsEnv : Env :=
  { convergedEnv with
      listRecordsResp := fun _ _ => .ok (recordsRespWith 0 (some [])) }

/-- Environment whose record listing returns a record of a different host and
record type. -/
def wrongTypeEnv : Env :=
  { convergedEnv with
      listRecordsResp := fun _ _ => .ok (recordsRespWith 1 (some [txtRecord])) }

/-- C4 (amended): a write failure inside `modify` or `create` marks only that
domain and the loop continues with the remaining domains (the step is always
`done` once zone lookup and record listing have succeeded with a decoded
records list); by contrast a zone-lookup error, zero zones, a record-list
error or a nil records list `return`s from the pass and the remaining domains
are not processed. -/
theorem c4_theorem (ttl : Int) (env : Env) (recordType ipAddr : String)
    (d : Domain) (resp : TrafficRouteZonesResp) (z : Zone) (zs : List Zone)
    (rstat : TrafficRouteRecordsResp) (records : List TrafficRouteRecord)
    (rest : List Domain)
    (h1 : env.listZonesResp d = Except.ok resp)
    (h2 : resp.Result.Total ≠ 0)
    (h3 : resp.Result.Zones = z :: zs)
    (h4 : env.listRecordsResp d z.ZID = Except.ok rstat)
    (h5 : rstat.Result.Records = some records) :
    ∃ d' calls, processOneDomain ttl env recordType ipAddr d = .done d' calls ∧
      processDomains ttl env recordType ipAddr (d :: rest) =
        (processDomains ttl env recordType ipAddr rest).map
          (fun pr => (d' :: pr.1, calls ++ pr.2)) := by
  have hdone : ∃ d' calls,
      processOneDomain ttl env recordType ipAddr d = .done d' calls := by
    by_cases h6 : 0 < rstat.Result.TotalCount
    · refine ⟨(modifyLoop ttl env recordType ipAddr d records).1,
        [.listZonesCall, .listRecordsCall z.ZID] ++
          (modifyLoop ttl env recordType ipAddr d records).2.map ApiCall.updateCall, ?_⟩
      simp [processOneDomain, h1, h2, h3, h4, h5, h6]
    · refine ⟨(create ttl env z.ZID d recordType ipAddr).1,
        [.listZonesCall, .listRecordsCall z.ZID,
          .createCall (create ttl env z.ZID d recordType ipAddr).2], ?_⟩
      simp [processOneDomain, h1, h2, h3, h4, h5, h6]
  obtain ⟨d', calls, hd⟩ := hdone
  exact ⟨d', calls, hd, by simp [processDomains, hd]⟩

/-- C4 witness: with the transport-failing update environment the first
domain's update fails, yet its step is `done` and the second domain is still
processed. -/
theorem c4_witness :
    ∃ d' calls,
      processOneDomain 600 transportFailEnv "A" "1.2.3.4" exDomain = .done d' calls ∧
      processDomains 600 transportFailEnv "A" "1.2.3.4" [exDomain, exDomain2] =
        (processDomains 600 transportFailEnv "A" "1.2.3.4" [exDomain2]).map
          (fun pr => (d' :: pr.1, calls ++ pr.2)) :=
  c4_theorem 600 transportFailEnv "A" "1.2.3.4" exDomain okZonesResp exZone []
    (recordsRespWith 2 (some [staleR1, staleR2])) [staleR1, staleR2] [exDomain2]
    rfl (by decide) rfl rfl rfl

/-- C4 counterexample: the zone lookup for the first domain fails; the pass
stops with a single ListZones call, the first domain marked Failed and the
second domain left entirely unprocessed (its status still UpdatedNothing even
though its own zone lookup would also fail), refuting the claim that every
other domain is still fully processed. -/
theorem c4_counterexample :
    processDomains 600 zonesErrEnv "A" "1.2.3.4" [exDomain, exDomain2] =
      some ([{ exDomain with UpdateStatus := .UpdatedFailed }, exDomain2],
        [.listZonesCall]) ∧
    exDomain2.UpdateStatus = .UpdatedNothing := by decide

/-- C5 (amended): for a domain whose record listing reports TotalCount 0 (no
existing records), exactly one create call is issued, carrying the desired IP
as value, the configured TTL and the domain's host — but the Line field is
the empty string: the configured routing line (`getLine`) is not consulted. -/
theorem c5_theorem (ttl : Int) (env : Env) (recordType ipAddr : String)
    (d : Domain) (resp : TrafficRouteZonesResp) (z : Zone) (zs : List Zone)
    (rstat : TrafficRouteRecordsResp) (records : List TrafficRouteRecord)
    (h1 : env.listZonesResp d = Except.ok resp)
    (h2 : resp.Result.Total ≠ 0)
    (h3 : resp.Result.Zones = z :: zs)
    (h4 : env.listRecordsResp d z.ZID = Except.ok rstat)
    (h5 : rstat.Result.Records = some records)
    (h6 : ¬ 0 < rstat.Result.TotalCount) :
    processOneDomain ttl env recordType ipAddr d =
      .done (create ttl env z.ZID d recordType ipAddr).1
        [.listZonesCall, .listRecordsCall z.ZID,
          .createCall (createPayload ttl z.ZID d recordType ipAddr)] ∧
    (createPayload ttl z.ZID d recordType ipAddr).Value = ipAddr ∧
    (createPayload ttl z.ZID d recordType ipAddr).TTL = ttl ∧
    (createPayload ttl z.ZID d recordType ipAddr).Host = d.SubDomain ∧
    (createPayload ttl z.ZID d recordType ipAddr).«Type» = recordType ∧
    (createPayload ttl z.ZID d recordType ipAddr).Line = "" := by
  refine ⟨?_, rfl, rfl, rfl, rfl, rfl⟩
  have hsnd := create_snd ttl env z.ZID d recordType ipAddr
  simp [processOneDomain, h1, h2, h3, h4, h5, h6, hsnd]

/-- C5 witness: on the empty-records environment one create call with the
desired value, TTL 600 and empty Line is issued for `exDomain`. -/
theorem c5_witness :
    processOneDomain 600 emptyRecordsEnv "A" "1.2.3.4" exDomain =
      .done (create 600 emptyRecordsEnv 1 exDomain "A" "1.2.3.4").1
        [.listZonesCall, .listRecordsCall 1,
          .createCall (createPayload 600 1 exDomain "A" "1.2.3.4")] ∧
    (createPayload 600 1 exDomain "A" "1.2.3.4").Value = "1.2.3.4" ∧
    (createPayload 600 1 exDomain "A" "1.2.3.4").TTL = 600 ∧
    (createPayload 600 1 exDomain "A" "1.2.3.4").Host = exDomain.SubDomain ∧
    (createPayload 600 1 exDomain "A" "1.2.3.4").«Type» = "A" ∧
    (createPayload 600 1 exDomain "A" "1.2.3.4").Line = "" :=
  c5_theorem 600 emptyRecordsEnv "A" "1.2.3.4" exDomain okZonesResp exZone []
    (recordsRespWith 0 (some [])) [] rfl (by decide) rfl rfl rfl (by decide)

/-- C5 counterexample: for a domain whose custom Line parameter is "Telecom",
the single create call issued carries an empty Line — neither the configured
line nor the provider default returned by `getLine` — refuting the claim that
the create call carries the domain's configured routing line. -/
theorem c5_counterexample :
    processOneDomain 600 emptyRecordsEnv "A" "1.2.3.4" lineDomain =
      .done { lineDomain with UpdateStatus := .UpdatedSuccess }
        [.listZonesCall, .listRecordsCall 1,
          .createCall (createPayload 600 1 lineDomain "A" "1.2.3.4")] ∧
    (createPayload 600 1 lineDomain "A" "1.2.3.4").Line = "" ∧
    getLine lineDomain = "Telecom" ∧
    (createPayload 600 1 lineDomain "A" "1.2.3.4").Line ≠ getLine lineDomain := by decide

/-- C7 (amended): the ListRecords request built inside the pass carries the
zone identifier as its only query parameter; neither the domain's host nor
the record type being processed appears in the query, so the returned records
are not restricted to that host and type by the request. -/
theorem c7_theorem (zoneID : Int) :
    listRecordsQuery (listRecordsPayload zoneID) = [("ZID", [toString zoneID])] ∧
    (listRecordsQuery (listRecordsPayload zoneID)).map Prod.fst = ["ZID"] :=
  ⟨rfl, rfl⟩

/-- C7 counterexample: the ListRecords query for zone 7 contains only the ZID
key — no Host and no Type key — and a returned record of host "other" and
type "TXT" is nevertheless considered and receives an update call, refuting
the claim that the listing queries by host and type so that every considered
record belongs to them. -/
theorem c7_counterexample :
    (listRecordsQuery (listRecordsPayload 7)).map Prod.fst = ["ZID"] ∧
    "Host" ∉ (listRecordsQuery (listRecordsPayload 7)).map Prod.fst ∧
    "Type" ∉ (listRecordsQuery (listRecordsPayload 7)).map Prod.fst ∧
    txtRecord.«Type» = "TXT" ∧ txtRecord.Host = "other" ∧
    processOneDomain 600 wrongTypeEnv "A" "1.2.3.4" exDomain =
      .done { exDomain with UpdateStatus := .UpdatedSuccess }
        [.listZonesCall, .listRecordsCall 1,
          .updateCall (updatePayload 600 exDomain "A" "1.2.3.4" txtRecord)] := by decide

/-- C9: when the provider state is converged — for every domain the zone
lookup succeeds with a non-empty zones list, the record listing succeeds with
a positive TotalCount, and every listed record already holds the desired IP —
re-running the pass issues zero create and zero update calls and leaves every
domain unchanged. -/
theorem c9_theorem (ttl : Int) (env : Env) (recordType ipAddr : String)
    (domains : List Domain)
    (H : ∀ d ∈ domains, ∃ resp z zs rstat records,
      env.listZonesResp d = Except.ok resp ∧ resp.Result.Total ≠ 0 ∧
      resp.Result.Zones = z :: zs ∧
      env.listRecordsResp d z.ZID = Except.ok rstat ∧
      rstat.Result.Records = some records ∧ 0 < rstat.Result.TotalCount ∧
      ∀ r ∈ records, r.Value = ipAddr) :
    ∃ calls, addUpdateDomainRecords ttl env recordType ipAddr domains =
        some (domains, calls) ∧ ∀ c ∈ calls, c.isWrite = false := by
  by_cases hip : ipAddr = ""
  · exact ⟨[], by simp [addUpdateDomainRecords, hip], by simp⟩
  · have main : ∀ ds : List Domain,
        (∀ d ∈ ds, ∃ resp z zs rstat records,
          env.listZonesResp d = Except.ok resp ∧ resp.Result.Total ≠ 0 ∧
          resp.Result.Zones = z :: zs ∧
          env.listRecordsResp d z.ZID = Except.ok rstat ∧
          rstat.Result.Records = some records ∧ 0 < rstat.Result.TotalCount ∧
          ∀ r ∈ records, r.Value = ipAddr) →
        ∃ calls, processDomains ttl env recordType ipAddr ds = some (ds, calls) ∧
          ∀ c ∈ calls, c.isWrite = false := by
      intro ds
      induction ds with
      | nil => intro _; exact ⟨[], rfl, by simp⟩
      | cons d rest ih =>
        intro hds
        obtain ⟨resp, z, zs, rstat, records, h1, h2, h3, h4, h5, h6, h7⟩ :=
          hds d (List.mem_cons_self d rest)
        obtain ⟨calls', hrest, hc'⟩ := ih (fun x hx => hds x (List.mem_cons_of_mem d hx))
        have hone := processOneDomain_converged ttl env recordType ipAddr d
          resp z zs rstat records h1 h2 h3 h4 h5 h6 h7
        refine ⟨[ApiCall.listZonesCall, ApiCall.listRecordsCall z.ZID] ++ calls', ?_, ?_⟩
        · simp [processDomains, hone, hrest]
        · intro c hc
          rcases List.mem_append.mp hc with hmem | hmem
          · simp only [List.mem_cons, List.not_mem_nil, or_false] at hmem
            rcases hmem with rfl | rfl <;> rfl
          · exact hc' c hmem
    obtain ⟨calls, hmain, hcalls⟩ := main domains H
    exact ⟨calls, by simp [addUpdateDomainRecords, hip, hmain], hcalls⟩

/-- C9 witness: on the converged environment the pass over `exDomain` returns
the domain list unchanged with a write-free call trace. -/
theorem c9_witness :
    ∃ calls, addUpdateDomainRecords 600 convergedEnv "A" "1.2.3.4" [exDomain] =
        some ([exDomain], calls) ∧ ∀ c ∈ calls, c.isWrite = false :=
  c9_theorem 600 convergedEnv "A" "1.2.3.4" [exDomain] (by
    intro d hd
    simp only [List.mem_singleton] at hd
    subst hd
    exact ⟨okZonesResp, exZone, [], recordsRespWith 1 (some [matchedRecord]),
      [matchedRecord], rfl, by decide, rfl, rfl, rfl, by decide, by decide⟩)

end TrafficRouteSpec
